import Mathlib

/-!
Verification development for the aws-vault CLI (src/main.go).

The four command handlers (upload, download, update-secret, create-secret)
are shallowly embedded as pure Lean functions.  External capabilities
(the S3 object store, the Secrets Manager service, the local filesystem,
AWS SDK config loading) are modelled as explicit inputs: the filesystem is
a function from path to contents-or-error, the object store is a function
from bucket and key to optional contents, and the outcomes of the network
calls (describe / create / update / put / get, config loading, body read,
local write) are injected through environment records, since the Go code
only branches on success versus the error's textual message.

Go byte slices pass through the program unchanged and `string(data)` in Go
preserves the raw bytes, so file and object contents are modelled as
`String`.  Each run returns the command's terminal outcome (exit status
with printed message) together with the trace of capability calls it made,
in order.
-/

/-- Terminal outcome of a command handler: normal return (process exit
status 0) with a printed line, or `os.Exit(1)` after printing a line. -/
inductive CmdOutcome where
  | exitSuccess (msg : String)
  | exitFailure (msg : String)
  deriving DecidableEq, Repr

/-- Local filesystem: a path maps to its raw contents, or to a read error
(the error returned by `ioutil.ReadFile`). -/
def FS : Type := String → Except String String

/-- S3 object store: bucket and key map to the stored object's bytes. -/
def Store : Type := String → String → Option String

/-- Calls made against the Secrets Manager capability, in order. -/
inductive SecretCall where
  | describeCall (name : String)
  | createCall (name description value : String)
  | updateCall (name description value : String)
  deriving DecidableEq, Repr

/-- Calls made against the S3 capability, in order. -/
inductive S3Event where
  | putObject (bucket key body : String)
  | getObject (bucket key : String)
  deriving DecidableEq, Repr

/-- Flag values for the secret commands, as read at main.go:147-152 and
248-252.  `updateFlag` models `--update`; the create-secret command does
not register that flag, so its runs are taken at `updateFlag = false`. -/
structure SecretFlags where
  name : String
  region : String
  description : String
  jsonFile : String
  updateFlag : Bool
  deriving DecidableEq, Repr

/-- Injected results of the external calls a secret command can make:
config loading (main.go:171/271), `DescribeSecret` (main.go:185, `ok`
means the secret exists), `UpdateSecret` (main.go:213) and `CreateSecret`
(main.go:231, `ok` carries the returned ARN).  Errors are their textual
messages, which is all the Go code inspects. -/
structure SecretsEnv where
  cfgResult : Except String Unit
  describeResult : Except String Unit
  updateResult : Except String Unit
  createResult : Except String String
  deriving Repr

/-- The first character list is a prefix of the second. -/
def charsHasPrefix : List Char → List Char → Bool
  | [], _ => true
  | _ :: _, [] => false
  | p :: ps, c :: cs => p = c && charsHasPrefix ps cs

/-- The second character list occurs contiguously inside the first. -/
def charsContains : List Char → List Char → Bool
  | s, pat =>
    match s with
    | [] => charsHasPrefix pat []
    | c :: rest => charsHasPrefix pat (c :: rest) || charsContains rest pat

/-- Go `strings.Contains(s, pat)`: `pat` occurs as a contiguous substring
of `s`. -/
def strContains (s pat : String) : Bool :=
  charsContains s.toList pat.toList

/-- The marker substring main.go:188 looks for in a describe error. -/
def notFoundMarker : String := "ResourceNotFoundException"

/-- readSecretFromJSON (main.go:299-305): read the file and return its raw
contents as a string, or the read error.  No JSON parsing happens. -/
def readSecretFromJSON (fs : FS) (filePath : String) : Except String String :=
  match fs filePath with
  | Except.error err => Except.error err
  | Except.ok data => Except.ok data

/-- Usage message printed by both secret commands (main.go:155/255). -/
def secretUsageMsg : String :=
  "Please provide all required input parameters: --name, --region, --description, and --json-file"

/-- Mutation phase of updateSecretCmd (main.go:204-238), reached when the
secret does not exist or exists with the update flag set: if `updateFlag`
is set call UpdateSecret, otherwise call CreateSecret; either call's
failure is fatal. -/
def secretMutationPhase (fl : SecretFlags) (secretValue : String)
    (env : SecretsEnv) (calls : List SecretCall) : CmdOutcome × List SecretCall :=
  if fl.updateFlag then
    let calls := calls ++ [SecretCall.updateCall fl.name fl.description secretValue]
    match env.updateResult with
    | Except.error e => (CmdOutcome.exitFailure ("Error updating secret: " ++ e), calls)
    | Except.ok _ => (CmdOutcome.exitSuccess "Successfully updated secret.", calls)
  else
    let calls := calls ++ [SecretCall.createCall fl.name fl.description secretValue]
    match env.createResult with
    | Except.error e => (CmdOutcome.exitFailure ("Error creating secret: " ++ e), calls)
    | Except.ok arn =>
        (CmdOutcome.exitSuccess ("Successfully created, Secret ARN: " ++ arn), calls)

/-- updateSecretCmd's Run (main.go:145-239): check the required flags,
read the secret value, load config, describe the secret, then branch on
the existence result and the update flag. -/
def updateSecretCmdRun (fl : SecretFlags) (fs : FS) (env : SecretsEnv) :
    CmdOutcome × List SecretCall :=
  if fl.name = "" ∨ fl.region = "" ∨ fl.description = "" ∨ fl.jsonFile = "" then
    (CmdOutcome.exitFailure secretUsageMsg, [])
  else
    match readSecretFromJSON fs fl.jsonFile with
    | Except.error e =>
        (CmdOutcome.exitFailure ("Error reading secret value from JSON file: " ++ e), [])
    | Except.ok secretValue =>
      match env.cfgResult with
      | Except.error e =>
          (CmdOutcome.exitFailure ("Error loading AWS SDK config: " ++ e), [])
      | Except.ok _ =>
        let calls := [SecretCall.describeCall fl.name]
        match env.describeResult with
        | Except.error e =>
            if strContains e notFoundMarker then
              secretMutationPhase fl secretValue env calls
            else
              (CmdOutcome.exitFailure ("Error describing secret: " ++ e), calls)
        | Except.ok _ =>
            if !fl.updateFlag then
              (CmdOutcome.exitSuccess "Secret already exists and update flag not set. Exiting.", calls)
            else
              secretMutationPhase fl secretValue env calls

/-- createSecretCmd's Run (main.go:246-296): check the required flags,
read the secret value, load config, then call CreateSecret directly;
no DescribeSecret call is made on this path. -/
def createSecretCmdRun (fl : SecretFlags) (fs : FS) (env : SecretsEnv) :
    CmdOutcome × List SecretCall :=
  if fl.name = "" ∨ fl.region = "" ∨ fl.description = "" ∨ fl.jsonFile = "" then
    (CmdOutcome.exitFailure secretUsageMsg, [])
  else
    match readSecretFromJSON fs fl.jsonFile with
    | Except.error e =>
        (CmdOutcome.exitFailure ("Error reading secret value from JSON file: " ++ e), [])
    | Except.ok secretValue =>
      match env.cfgResult with
      | Except.error e =>
          (CmdOutcome.exitFailure ("Error loading AWS SDK config: " ++ e), [])
      | Except.ok _ =>
        let calls := [SecretCall.createCall fl.name fl.description secretValue]
        match env.createResult with
        | Except.error e =>
            (CmdOutcome.exitFailure ("Error creating secret: " ++ e), calls)
        | Except.ok arn =>
            (CmdOutcome.exitSuccess ("Successfully created, Secret ARN: " ++ arn), calls)

/-- Number of CreateSecret calls in a trace. -/
def countCreate (calls : List SecretCall) : Nat :=
  calls.countP fun c =>
    match c with
    | SecretCall.createCall _ _ _ => true
    | _ => false

/-- Number of UpdateSecret calls in a trace. -/
def countUpdate (calls : List SecretCall) : Nat :=
  calls.countP fun c =>
    match c with
    | SecretCall.updateCall _ _ _ => true
    | _ => false

/-- Number of DescribeSecret calls in a trace. -/
def countDescribe (calls : List SecretCall) : Nat :=
  calls.countP fun c =>
    match c with
    | SecretCall.describeCall _ => true
    | _ => false

/-- Injected results of the external calls the S3 commands can make:
config loading (main.go:57/104), `PutObject` (main.go:74), `GetObject`
(main.go:114, network-level failure as opposed to a missing key), reading
the response body (main.go:124) and writing the downloaded file
(main.go:131). -/
structure S3Env where
  cfgResult : Except String Unit
  putResult : Except String Unit
  getResult : Except String Unit
  readBodyResult : Except String Unit
  writeFileResult : Except String Unit
  deriving Repr

/-- The object key both S3 commands build (main.go:76 and main.go:116):
the subdirectory, a literal slash, and the file path, concatenated with
no normalization. -/
def objectKey (subdirectory filePath : String) : String :=
  subdirectory ++ "/" ++ filePath

/-- Usage message printed by the upload and download commands
(main.go:52/99). -/
def s3UsageMsg : String :=
  "Please provide all required input parameters: --bucket and --file"

/-- uploadCmd's Run (main.go:45-85): check the required flags, load
config, read the local file, then PutObject under
`subdirectory + "/" + filePath`.  Returns the outcome, the S3 call trace,
and the resulting object store (updated only when the put succeeds). -/
def uploadCmdRun (bucketName filePath subdirectory : String) (fs : FS)
    (env : S3Env) (store : Store) : CmdOutcome × List S3Event × Store :=
  if bucketName = "" ∨ filePath = "" then
    (CmdOutcome.exitFailure s3UsageMsg, [], store)
  else
    match env.cfgResult with
    | Except.error e =>
        (CmdOutcome.exitFailure ("Error loading AWS SDK config: " ++ e), [], store)
    | Except.ok _ =>
      match fs filePath with
      | Except.error e =>
          (CmdOutcome.exitFailure ("Error reading file: " ++ e), [], store)
      | Except.ok data =>
        let events := [S3Event.putObject bucketName (objectKey subdirectory filePath) data]
        match env.putResult with
        | Except.error e =>
            (CmdOutcome.exitFailure ("Error uploading file to S3: " ++ e), events, store)
        | Except.ok _ =>
            (CmdOutcome.exitSuccess "File uploaded to S3 successfully.",
              events,
              fun b k =>
                if b = bucketName ∧ k = objectKey subdirectory filePath then some data
                else store b k)

/-- downloadCmd's Run (main.go:92-138): check the required flags, load
config, GetObject under `subdirectory + "/" + filePath` (failing when the
network call fails or the key is absent), read the body, and write the
bytes to the local path `filePath`.  Returns the outcome, the S3 call
trace, and the resulting local filesystem (updated only when the whole
command succeeds). -/
def downloadCmdRun (bucketName filePath subdirectory : String) (fs : FS)
    (env : S3Env) (store : Store) : CmdOutcome × List S3Event × FS :=
  if bucketName = "" ∨ filePath = "" then
    (CmdOutcome.exitFailure s3UsageMsg, [], fs)
  else
    match env.cfgResult with
    | Except.error e =>
        (CmdOutcome.exitFailure ("Error loading AWS SDK config: " ++ e), [], fs)
    | Except.ok _ =>
      let events := [S3Event.getObject bucketName (objectKey subdirectory filePath)]
      match env.getResult with
      | Except.error e =>
          (CmdOutcome.exitFailure ("Error downloading file from S3: " ++ e), events, fs)
      | Except.ok _ =>
        match store bucketName (objectKey subdirectory filePath) with
        | none =>
            (CmdOutcome.exitFailure "Error downloading file from S3: NoSuchKey", events, fs)
        | some data =>
          match env.readBodyResult with
          | Except.error e =>
              (CmdOutcome.exitFailure ("Error reading file contents: " ++ e), events, fs)
          | Except.ok _ =>
            match env.writeFileResult with
            | Except.error e =>
                (CmdOutcome.exitFailure ("Error writing file to disk: " ++ e), events, fs)
            | Except.ok _ =>
                (CmdOutcome.exitSuccess "File downloaded from S3 successfully.",
                  events,
                  fun p => if p = filePath then Except.ok data else fs p)

/-- Sample flag values for the secret commands, with a chosen update flag. -/
def sampleFlags (u : Bool) : SecretFlags :=
  { name := "db-pass", region := "us-east-1", description := "prod db password",
    jsonFile := "secret.json", updateFlag := u }

/-- Sample local filesystem holding one secret file. -/
def sampleFS : FS := fun p =>
  if p = "secret.json" then Except.ok "pw"
  else Except.error "open: no such file or directory"

/-- Empty object store. -/
def emptyStore : Store := fun _ _ => none

/-- Environment where the secret exists and every call succeeds. -/
def envExistsOk : SecretsEnv :=
  { cfgResult := Except.ok (), describeResult := Except.ok (),
    updateResult := Except.ok (), createResult := Except.ok "arn:aws:1" }

/-- Environment where describe fails with the not-found marker and the
mutation calls succeed. -/
def envNotFound : SecretsEnv :=
  { cfgResult := Except.ok (),
    describeResult := Except.error "ResourceNotFoundException: secret not found",
    updateResult := Except.ok (), createResult := Except.ok "arn:aws:1" }

/-- Environment where describe fails with an unrelated error. -/
def envDescribeDenied : SecretsEnv :=
  { cfgResult := Except.ok (),
    describeResult := Except.error "AccessDeniedException: not authorized",
    updateResult := Except.ok (), createResult := Except.ok "arn:aws:1" }

/-- Environment where the secret exists and a create attempt fails the way
the service rejects duplicate creation. -/
def envCreateExistsErr : SecretsEnv :=
  { cfgResult := Except.ok (), describeResult := Except.ok (),
    updateResult := Except.ok (),
    createResult := Except.error "ResourceExistsException: the secret already exists" }

/-- S3 environment where every call succeeds. -/
def s3EnvOk : S3Env :=
  { cfgResult := Except.ok (), putResult := Except.ok (), getResult := Except.ok (),
    readBodyResult := Except.ok (), writeFileResult := Except.ok () }

/-- Helper: with valid flags, a successful file read and config load,
updateSecretCmdRun reaches the describe call and branches on its result. -/
theorem updateSecretCmdRun_valid (fl : SecretFlags) (fs : FS) (env : SecretsEnv)
    (v : String)
    (hn : fl.name ≠ "") (hr : fl.region ≠ "") (hd : fl.description ≠ "")
    (hj : fl.jsonFile ≠ "") (hread : fs fl.jsonFile = Except.ok v)
    (hcfg : env.cfgResult = Except.ok ()) :
    updateSecretCmdRun fl fs env =
      match env.describeResult with
      | Except.error e =>
          if strContains e notFoundMarker then
            secretMutationPhase fl v env [SecretCall.describeCall fl.name]
          else
            (CmdOutcome.exitFailure ("Error describing secret: " ++ e),
              [SecretCall.describeCall fl.name])
      | Except.ok _ =>
          if !fl.updateFlag then
            (CmdOutcome.exitSuccess "Secret already exists and update flag not set. Exiting.",
              [SecretCall.describeCall fl.name])
          else
            secretMutationPhase fl v env [SecretCall.describeCall fl.name] := by
  unfold updateSecretCmdRun readSecretFromJSON
  rw [hread, hcfg]
  simp [hn, hr, hd, hj]

/-- C3: when describe reports the secret exists and updateRequested is
true, updateSecretCmdRun calls update exactly once and create never; a
failing update is fatal with its error reported, and a successful update
reports the updated outcome. -/
theorem c3_exists_update_requested (fl : SecretFlags) (fs : FS)
    (env : SecretsEnv) (v : String)
    (hn : fl.name ≠ "") (hr : fl.region ≠ "") (hd : fl.description ≠ "")
    (hj : fl.jsonFile ≠ "") (hread : fs fl.jsonFile = Except.ok v)
    (hcfg : env.cfgResult = Except.ok ())
    (hex : env.describeResult = Except.ok ())
    (hu : fl.updateFlag = true) :
    countUpdate (updateSecretCmdRun fl fs env).2 = 1 ∧
    countCreate (updateSecretCmdRun fl fs env).2 = 0 ∧
    (∀ e, env.updateResult = Except.error e →
      (updateSecretCmdRun fl fs env).1 =
        CmdOutcome.exitFailure ("Error updating secret: " ++ e)) ∧
    (env.updateResult = Except.ok () →
      (updateSecretCmdRun fl fs env).1 =
        CmdOutcome.exitSuccess "Successfully updated secret.") := by
  rw [updateSecretCmdRun_valid fl fs env v hn hr hd hj hread hcfg, hex]
  unfold secretMutationPhase
  rw [hu]
  cases henv : env.updateResult with
  | error e =>
      simp [countUpdate, countCreate, List.countP, List.countP.go]
  | ok u =>
      simp [countUpdate, countCreate, List.countP, List.countP.go]

/-- C4: when describe reports the secret exists and updateRequested is
false, updateSecretCmdRun calls neither create nor update and terminates
successfully with the no-op message. -/
theorem c4_exists_no_update_flag (fl : SecretFlags) (fs : FS)
    (env : SecretsEnv) (v : String)
    (hn : fl.name ≠ "") (hr : fl.region ≠ "") (hd : fl.description ≠ "")
    (hj : fl.jsonFile ≠ "") (hread : fs fl.jsonFile = Except.ok v)
    (hcfg : env.cfgResult = Except.ok ())
    (hex : env.describeResult = Except.ok ())
    (hu : fl.updateFlag = false) :
    countUpdate (updateSecretCmdRun fl fs env).2 = 0 ∧
    countCreate (updateSecretCmdRun fl fs env).2 = 0 ∧
    (updateSecretCmdRun fl fs env).1 =
      CmdOutcome.exitSuccess "Secret already exists and update flag not set. Exiting." := by
  rw [updateSecretCmdRun_valid fl fs env v hn hr hd hj hread hcfg, hex]
  rw [hu]
  simp [countUpdate, countCreate, List.countP, List.countP.go]

/-- C5: when describe fails with an error lacking the not-found marker,
updateSecretCmdRun calls neither create nor update and terminates with a
failure carrying that error. -/
theorem c5_describe_unknown_error (fl : SecretFlags) (fs : FS)
    (env : SecretsEnv) (v e : String)
    (hn : fl.name ≠ "") (hr : fl.region ≠ "") (hd : fl.description ≠ "")
    (hj : fl.jsonFile ≠ "") (hread : fs fl.jsonFile = Except.ok v)
    (hcfg : env.cfgResult = Except.ok ())
    (hde : env.describeResult = Except.error e)
    (hmark : strContains e notFoundMarker = false) :
    countUpdate (updateSecretCmdRun fl fs env).2 = 0 ∧
    countCreate (updateSecretCmdRun fl fs env).2 = 0 ∧
    (updateSecretCmdRun fl fs env).1 =
      CmdOutcome.exitFailure ("Error describing secret: " ++ e) := by
  rw [updateSecretCmdRun_valid fl fs env v hn hr hd hj hread hcfg, hde]
  simp [hmark, countUpdate, countCreate, List.countP, List.countP.go]

/-- Witness for the existing-secret update case at concrete inputs. -/
theorem c3_exists_update_requested_witness :
    countUpdate (updateSecretCmdRun (sampleFlags true) sampleFS envExistsOk).2 = 1 ∧
    countCreate (updateSecretCmdRun (sampleFlags true) sampleFS envExistsOk).2 = 0 ∧
    (∀ e, envExistsOk.updateResult = Except.error e →
      (updateSecretCmdRun (sampleFlags true) sampleFS envExistsOk).1 =
        CmdOutcome.exitFailure ("Error updating secret: " ++ e)) ∧
    (envExistsOk.updateResult = Except.ok () →
      (updateSecretCmdRun (sampleFlags true) sampleFS envExistsOk).1 =
        CmdOutcome.exitSuccess "Successfully updated secret.") :=
  c3_exists_update_requested (sampleFlags true) sampleFS envExistsOk "pw"
    (by decide) (by decide) (by decide) (by decide) rfl rfl rfl rfl

/-- Witness for the existing-secret no-op case at concrete inputs. -/
theorem c4_exists_no_update_flag_witness :
    countUpdate (updateSecretCmdRun (sampleFlags false) sampleFS envExistsOk).2 = 0 ∧
    countCreate (updateSecretCmdRun (sampleFlags false) sampleFS envExistsOk).2 = 0 ∧
    (updateSecretCmdRun (sampleFlags false) sampleFS envExistsOk).1 =
      CmdOutcome.exitSuccess "Secret already exists and update flag not set. Exiting." :=
  c4_exists_no_update_flag (sampleFlags false) sampleFS envExistsOk "pw"
    (by decide) (by decide) (by decide) (by decide) rfl rfl rfl rfl

/-- Witness for the unknown-describe-error case at concrete inputs. -/
theorem c5_describe_unknown_error_witness :
    countUpdate (updateSecretCmdRun (sampleFlags false) sampleFS envDescribeDenied).2 = 0 ∧
    countCreate (updateSecretCmdRun (sampleFlags false) sampleFS envDescribeDenied).2 = 0 ∧
    (updateSecretCmdRun (sampleFlags false) sampleFS envDescribeDenied).1 =
      CmdOutcome.exitFailure
        ("Error describing secret: " ++ "AccessDeniedException: not authorized") :=
  c5_describe_unknown_error (sampleFlags false) sampleFS envDescribeDenied "pw"
    "AccessDeniedException: not authorized"
    (by decide) (by decide) (by decide) (by decide) rfl rfl rfl (by decide)

/-- C1: the claim says that on describe → NotFound the procedure calls
create exactly once and never update, regardless of updateRequested.  At
describe → NotFound with the update flag set, updateSecretCmdRun
(main.go:204-221) calls update once and create never: the `if updateFlag`
block runs UpdateSecret even though the describe branch just reported the
secret absent and announced creation. -/
theorem c1_notfound_with_update_flag_calls_update :
    countCreate (updateSecretCmdRun (sampleFlags true) sampleFS envNotFound).2 = 0 ∧
    countUpdate (updateSecretCmdRun (sampleFlags true) sampleFS envNotFound).2 = 1 ∧
    (updateSecretCmdRun (sampleFlags true) sampleFS envNotFound).1 =
      CmdOutcome.exitSuccess "Successfully updated secret." := by
  decide

/-- C2 counterexample: with valid parameters and a secret that already
exists, createSecretCmdRun performs no describe call at all, and instead
of silently no-op-ing it attempts creation and exits with the create
error, refuting the claim that it runs update-secret's describe-first
procedure. -/
theorem c2_create_secret_no_describe_counterexample :
    countDescribe (createSecretCmdRun (sampleFlags false) sampleFS envCreateExistsErr).2 = 0 ∧
    countCreate (createSecretCmdRun (sampleFlags false) sampleFS envCreateExistsErr).2 = 1 ∧
    (createSecretCmdRun (sampleFlags false) sampleFS envCreateExistsErr).1 =
      CmdOutcome.exitFailure
        ("Error creating secret: " ++ "ResourceExistsException: the secret already exists") ∧
    (updateSecretCmdRun (sampleFlags false) sampleFS envCreateExistsErr).1 =
      CmdOutcome.exitSuccess "Secret already exists and update flag not set. Exiting." := by
  decide

/-- Helper: with valid flags, a successful file read and config load,
createSecretCmdRun goes straight to the create call. -/
theorem createSecretCmdRun_valid (fl : SecretFlags) (fs : FS) (env : SecretsEnv)
    (v : String)
    (hn : fl.name ≠ "") (hr : fl.region ≠ "") (hd : fl.description ≠ "")
    (hj : fl.jsonFile ≠ "") (hread : fs fl.jsonFile = Except.ok v)
    (hcfg : env.cfgResult = Except.ok ()) :
    createSecretCmdRun fl fs env =
      match env.createResult with
      | Except.error e =>
          (CmdOutcome.exitFailure ("Error creating secret: " ++ e),
            [SecretCall.createCall fl.name fl.description v])
      | Except.ok arn =>
          (CmdOutcome.exitSuccess ("Successfully created, Secret ARN: " ++ arn),
            [SecretCall.createCall fl.name fl.description v]) := by
  unfold createSecretCmdRun readSecretFromJSON
  rw [hread, hcfg]
  simp [hn, hr, hd, hj]

/-- C2 amended: the create-secret entry point does not run the
describe-then-decide procedure: with valid parameters it performs no
describe call and exactly one create call; when creation fails (as it
does when the secret already exists) the command exits with that error,
and on success it reports the created ARN. -/
theorem c2_create_secret_goes_straight_to_create (fl : SecretFlags) (fs : FS)
    (env : SecretsEnv) (v : String)
    (hn : fl.name ≠ "") (hr : fl.region ≠ "") (hd : fl.description ≠ "")
    (hj : fl.jsonFile ≠ "") (hread : fs fl.jsonFile = Except.ok v)
    (hcfg : env.cfgResult = Except.ok ()) :
    countDescribe (createSecretCmdRun fl fs env).2 = 0 ∧
    countUpdate (createSecretCmdRun fl fs env).2 = 0 ∧
    countCreate (createSecretCmdRun fl fs env).2 = 1 ∧
    (∀ e, env.createResult = Except.error e →
      (createSecretCmdRun fl fs env).1 =
        CmdOutcome.exitFailure ("Error creating secret: " ++ e)) ∧
    (∀ arn, env.createResult = Except.ok arn →
      (createSecretCmdRun fl fs env).1 =
        CmdOutcome.exitSuccess ("Successfully created, Secret ARN: " ++ arn)) := by
  rw [createSecretCmdRun_valid fl fs env v hn hr hd hj hread hcfg]
  cases henv : env.createResult with
  | error e =>
      simp [countDescribe, countUpdate, countCreate, List.countP, List.countP.go]
  | ok arn =>
      simp [countDescribe, countUpdate, countCreate, List.countP, List.countP.go]

/-- Witness for the amended create-secret behaviour at concrete inputs. -/
theorem c2_create_secret_goes_straight_to_create_witness :
    countDescribe (createSecretCmdRun (sampleFlags false) sampleFS envExistsOk).2 = 0 ∧
    countUpdate (createSecretCmdRun (sampleFlags false) sampleFS envExistsOk).2 = 0 ∧
    countCreate (createSecretCmdRun (sampleFlags false) sampleFS envExistsOk).2 = 1 ∧
    (∀ e, envExistsOk.createResult = Except.error e →
      (createSecretCmdRun (sampleFlags false) sampleFS envExistsOk).1 =
        CmdOutcome.exitFailure ("Error creating secret: " ++ e)) ∧
    (∀ arn, envExistsOk.createResult = Except.ok arn →
      (createSecretCmdRun (sampleFlags false) sampleFS envExistsOk).1 =
        CmdOutcome.exitSuccess ("Successfully created, Secret ARN: " ++ arn)) :=
  c2_create_secret_goes_straight_to_create (sampleFlags false) sampleFS envExistsOk "pw"
    (by decide) (by decide) (by decide) (by decide) rfl rfl

/-- C7: when a required flag is empty, each command prints its usage
message and exits with status 1, having made no capability call and left
the object store and local filesystem untouched. -/
theorem c7_missing_required_flags (bucket file subdir : String)
    (fl : SecretFlags) (fs : FS) (senv : SecretsEnv) (env : S3Env) (store : Store)
    (hbf : bucket = "" ∨ file = "")
    (hsf : fl.name = "" ∨ fl.region = "" ∨ fl.description = "" ∨ fl.jsonFile = "") :
    uploadCmdRun bucket file subdir fs env store =
      (CmdOutcome.exitFailure s3UsageMsg, [], store) ∧
    downloadCmdRun bucket file subdir fs env store =
      (CmdOutcome.exitFailure s3UsageMsg, [], fs) ∧
    updateSecretCmdRun fl fs senv = (CmdOutcome.exitFailure secretUsageMsg, []) ∧
    createSecretCmdRun fl fs senv = (CmdOutcome.exitFailure secretUsageMsg, []) := by
  unfold uploadCmdRun downloadCmdRun updateSecretCmdRun createSecretCmdRun
  rw [if_pos hbf, if_pos hbf, if_pos hsf, if_pos hsf]
  exact ⟨rfl, rfl, rfl, rfl⟩

/-- Witness for the missing-flag behaviour at concrete inputs. -/
theorem c7_missing_required_flags_witness :
    uploadCmdRun "" "f.txt" "sub" sampleFS s3EnvOk emptyStore =
      (CmdOutcome.exitFailure s3UsageMsg, [], emptyStore) ∧
    downloadCmdRun "" "f.txt" "sub" sampleFS s3EnvOk emptyStore =
      (CmdOutcome.exitFailure s3UsageMsg, [], sampleFS) ∧
    updateSecretCmdRun
      { name := "", region := "us-east-1", description := "d",
        jsonFile := "s.json", updateFlag := false } sampleFS envExistsOk =
      (CmdOutcome.exitFailure secretUsageMsg, []) ∧
    createSecretCmdRun
      { name := "", region := "us-east-1", description := "d",
        jsonFile := "s.json", updateFlag := false } sampleFS envExistsOk =
      (CmdOutcome.exitFailure secretUsageMsg, []) :=
  c7_missing_required_flags "" "f.txt" "sub"
    { name := "", region := "us-east-1", description := "d",
      jsonFile := "s.json", updateFlag := false }
    sampleFS envExistsOk s3EnvOk emptyStore (Or.inl rfl) (Or.inl rfl)

/-- C8: with valid inputs and a failing describe call, the run proceeds
to a mutation call (trace of length two) exactly when the error message
contains the not-found marker substring; any describe failure lacking the
marker aborts the command with that error after the describe call alone. -/
theorem c8_notfound_iff_marker (fl : SecretFlags) (fs : FS) (env : SecretsEnv)
    (v e : String)
    (hn : fl.name ≠ "") (hr : fl.region ≠ "") (hd : fl.description ≠ "")
    (hj : fl.jsonFile ≠ "") (hread : fs fl.jsonFile = Except.ok v)
    (hcfg : env.cfgResult = Except.ok ())
    (hde : env.describeResult = Except.error e) :
    ((updateSecretCmdRun fl fs env).2.length = 2 ↔
      strContains e notFoundMarker = true) ∧
    (strContains e notFoundMarker = false →
      updateSecretCmdRun fl fs env =
        (CmdOutcome.exitFailure ("Error describing secret: " ++ e),
          [SecretCall.describeCall fl.name])) := by
  rw [updateSecretCmdRun_valid fl fs env v hn hr hd hj hread hcfg, hde]
  cases hm : strContains e notFoundMarker with
  | false => simp [hm]
  | true =>
      have hlen :
          (secretMutationPhase fl v env [SecretCall.describeCall fl.name]).2.length = 2 := by
        unfold secretMutationPhase
        by_cases hu : fl.updateFlag = true
        · rw [if_pos hu]
          cases env.updateResult <;> simp
        · rw [if_neg hu]
          cases env.createResult <;> simp
      simp [hm, hlen]

/-- Witness for the describe-error classification at concrete inputs. -/
theorem c8_notfound_iff_marker_witness :
    ((updateSecretCmdRun (sampleFlags false) sampleFS envDescribeDenied).2.length = 2 ↔
      strContains "AccessDeniedException: not authorized" notFoundMarker = true) ∧
    (strContains "AccessDeniedException: not authorized" notFoundMarker = false →
      updateSecretCmdRun (sampleFlags false) sampleFS envDescribeDenied =
        (CmdOutcome.exitFailure
          ("Error describing secret: " ++ "AccessDeniedException: not authorized"),
          [SecretCall.describeCall (sampleFlags false).name])) :=
  c8_notfound_iff_marker (sampleFlags false) sampleFS envDescribeDenied "pw"
    "AccessDeniedException: not authorized"
    (by decide) (by decide) (by decide) (by decide) rfl rfl rfl

/-- Helper: a call recorded by the mutation phase is a prior call, or a
create or update call carrying the given description and value. -/
theorem secretMutationPhase_trace (fl : SecretFlags) (v : String)
    (env : SecretsEnv) (calls : List SecretCall) (c : SecretCall)
    (hc : c ∈ (secretMutationPhase fl v env calls).2) :
    c ∈ calls ∨ c = SecretCall.createCall fl.name fl.description v ∨
      c = SecretCall.updateCall fl.name fl.description v := by
  unfold secretMutationPhase at hc
  by_cases hu : fl.updateFlag = true
  · rw [if_pos hu] at hc
    cases henv : env.updateResult <;> rw [henv] at hc <;> simp at hc <;> tauto
  · rw [if_neg hu] at hc
    cases henv : env.createResult <;> rw [henv] at hc <;> simp at hc <;> tauto

/-- Helper: with valid inputs, every call in updateSecretCmdRun's trace is
the describe call or a mutation call carrying the description and the
value read from the file. -/
theorem updateSecretCmdRun_trace_mem (fl : SecretFlags) (fs : FS)
    (env : SecretsEnv) (v : String)
    (hn : fl.name ≠ "") (hr : fl.region ≠ "") (hd : fl.description ≠ "")
    (hj : fl.jsonFile ≠ "") (hread : fs fl.jsonFile = Except.ok v)
    (hcfg : env.cfgResult = Except.ok ()) (c : SecretCall)
    (hc : c ∈ (updateSecretCmdRun fl fs env).2) :
    c = SecretCall.describeCall fl.name ∨
    c = SecretCall.createCall fl.name fl.description v ∨
    c = SecretCall.updateCall fl.name fl.description v := by
  rw [updateSecretCmdRun_valid fl fs env v hn hr hd hj hread hcfg] at hc
  cases hde : env.describeResult with
  | error e =>
      rw [hde] at hc
      by_cases hm : strContains e notFoundMarker = true
      · simp only [hm, if_true] at hc
        rcases secretMutationPhase_trace fl v env _ c hc with h | h | h
        · simp at h; tauto
        · tauto
        · tauto
      · simp [hm] at hc
        tauto
  | ok u =>
      rw [hde] at hc
      cases hu : fl.updateFlag with
      | false =>
          rw [hu] at hc
          simp at hc
          tauto
      | true =>
          rw [hu] at hc
          simp only [Bool.not_true, Bool.false_eq_true, if_false] at hc
          rcases secretMutationPhase_trace fl v env _ c hc with h | h | h
          · simp at h; tauto
          · tauto
          · tauto

/-- C9: readSecretFromJSON returns the file's raw contents unchanged (or
the read error), with no parsing, and the value carried by every mutation
call either secret command makes equals those raw contents. -/
theorem c9_secret_value_is_raw_file_contents (fs : FS) (path : String)
    (fl : SecretFlags) (env : SecretsEnv) (v : String)
    (hn : fl.name ≠ "") (hr : fl.region ≠ "") (hd : fl.description ≠ "")
    (hj : fl.jsonFile ≠ "") (hread : fs fl.jsonFile = Except.ok v)
    (hcfg : env.cfgResult = Except.ok ()) :
    (∀ s, fs path = Except.ok s → readSecretFromJSON fs path = Except.ok s) ∧
    (∀ err, fs path = Except.error err →
      readSecretFromJSON fs path = Except.error err) ∧
    (∀ c ∈ (updateSecretCmdRun fl fs env).2,
      c = SecretCall.describeCall fl.name ∨
      c = SecretCall.createCall fl.name fl.description v ∨
      c = SecretCall.updateCall fl.name fl.description v) ∧
    (∀ c ∈ (createSecretCmdRun fl fs env).2,
      c = SecretCall.createCall fl.name fl.description v) := by
  refine ⟨?_, ?_, ?_, ?_⟩
  · intro s hs
    unfold readSecretFromJSON
    rw [hs]
  · intro err herr
    unfold readSecretFromJSON
    rw [herr]
  · intro c hc
    exact updateSecretCmdRun_trace_mem fl fs env v hn hr hd hj hread hcfg c hc
  · intro c hc
    rw [createSecretCmdRun_valid fl fs env v hn hr hd hj hread hcfg] at hc
    cases hcre : env.createResult <;> rw [hcre] at hc <;> simp at hc <;> exact hc

/-- Witness for the raw-contents pass-through at concrete inputs. -/
theorem c9_secret_value_is_raw_file_contents_witness :
    (∀ s, sampleFS "secret.json" = Except.ok s →
      readSecretFromJSON sampleFS "secret.json" = Except.ok s) ∧
    (∀ err, sampleFS "secret.json" = Except.error err →
      readSecretFromJSON sampleFS "secret.json" = Except.error err) ∧
    (∀ c ∈ (updateSecretCmdRun (sampleFlags true) sampleFS envExistsOk).2,
      c = SecretCall.describeCall (sampleFlags true).name ∨
      c = SecretCall.createCall (sampleFlags true).name
            (sampleFlags true).description "pw" ∨
      c = SecretCall.updateCall (sampleFlags true).name
            (sampleFlags true).description "pw") ∧
    (∀ c ∈ (createSecretCmdRun (sampleFlags true) sampleFS envExistsOk).2,
      c = SecretCall.createCall (sampleFlags true).name
            (sampleFlags true).description "pw") :=
  c9_secret_value_is_raw_file_contents sampleFS "secret.json" (sampleFlags true)
    envExistsOk "pw" (by decide) (by decide) (by decide) (by decide) rfl rfl

/-- C6: uploading a file and then downloading with the same bucket,
subdirectory and file arguments addresses the same object key in both
commands and restores byte-identical contents at the local path. -/
theorem c6_upload_download_roundtrip (bucket file subdir data : String)
    (fs : FS) (env : S3Env) (store : Store)
    (hb : bucket ≠ "") (hf : file ≠ "") (hread : fs file = Except.ok data)
    (hcfg : env.cfgResult = Except.ok ()) (hput : env.putResult = Except.ok ())
    (hget : env.getResult = Except.ok ())
    (hbody : env.readBodyResult = Except.ok ())
    (hwrite : env.writeFileResult = Except.ok ()) :
    (uploadCmdRun bucket file subdir fs env store).1 =
      CmdOutcome.exitSuccess "File uploaded to S3 successfully." ∧
    (uploadCmdRun bucket file subdir fs env store).2.1 =
      [S3Event.putObject bucket (objectKey subdir file) data] ∧
    (downloadCmdRun bucket file subdir fs env
        (uploadCmdRun bucket file subdir fs env store).2.2).1 =
      CmdOutcome.exitSuccess "File downloaded from S3 successfully." ∧
    (downloadCmdRun bucket file subdir fs env
        (uploadCmdRun bucket file subdir fs env store).2.2).2.1 =
      [S3Event.getObject bucket (objectKey subdir file)] ∧
    (downloadCmdRun bucket file subdir fs env
        (uploadCmdRun bucket file subdir fs env store).2.2).2.2 file =
      Except.ok data := by
  have hup : uploadCmdRun bucket file subdir fs env store =
      (CmdOutcome.exitSuccess "File uploaded to S3 successfully.",
        [S3Event.putObject bucket (objectKey subdir file) data],
        fun b k =>
          if b = bucket ∧ k = objectKey subdir file then some data
          else store b k) := by
    unfold uploadCmdRun
    rw [hcfg, hread, hput]
    simp [hb, hf]
  rw [hup]
  have hdown : downloadCmdRun bucket file subdir fs env
      (fun b k =>
        if b = bucket ∧ k = objectKey subdir file then some data
        else store b k) =
      (CmdOutcome.exitSuccess "File downloaded from S3 successfully.",
        [S3Event.getObject bucket (objectKey subdir file)],
        fun p => if p = file then Except.ok data else fs p) := by
    unfold downloadCmdRun
    rw [hcfg, hget, hbody, hwrite]
    simp [hb, hf]
  rw [hdown]
  simp

/-- Witness for the upload/download round-trip at concrete inputs. -/
theorem c6_upload_download_roundtrip_witness :
    (uploadCmdRun "bkt" "secret.json" "sub" sampleFS s3EnvOk emptyStore).1 =
      CmdOutcome.exitSuccess "File uploaded to S3 successfully." ∧
    (uploadCmdRun "bkt" "secret.json" "sub" sampleFS s3EnvOk emptyStore).2.1 =
      [S3Event.putObject "bkt" (objectKey "sub" "secret.json") "pw"] ∧
    (downloadCmdRun "bkt" "secret.json" "sub" sampleFS s3EnvOk
        (uploadCmdRun "bkt" "secret.json" "sub" sampleFS s3EnvOk emptyStore).2.2).1 =
      CmdOutcome.exitSuccess "File downloaded from S3 successfully." ∧
    (downloadCmdRun "bkt" "secret.json" "sub" sampleFS s3EnvOk
        (uploadCmdRun "bkt" "secret.json" "sub" sampleFS s3EnvOk emptyStore).2.2).2.1 =
      [S3Event.getObject "bkt" (objectKey "sub" "secret.json")] ∧
    (downloadCmdRun "bkt" "secret.json" "sub" sampleFS s3EnvOk
        (uploadCmdRun "bkt" "secret.json" "sub" sampleFS s3EnvOk emptyStore).2.2).2.2
        "secret.json" =
      Except.ok "pw" :=
  c6_upload_download_roundtrip "bkt" "secret.json" "sub" "pw" sampleFS s3EnvOk
    emptyStore (by decide) (by decide) rfl rfl rfl rfl rfl rfl

/-- C10: both S3 commands address the object key formed as the
subdirectory, a slash, and the file path; with an empty subdirectory the
key is the file path preceded by a slash, not the file path alone. -/
theorem c10_object_key_shape (bucket file subdir : String)
    (fs : FS) (env : S3Env) (store : Store) (data : String)
    (hb : bucket ≠ "") (hf : file ≠ "") (hread : fs file = Except.ok data)
    (hcfg : env.cfgResult = Except.ok ()) :
    (uploadCmdRun bucket file subdir fs env store).2.1 =
      [S3Event.putObject bucket (subdir ++ "/" ++ file) data] ∧
    (downloadCmdRun bucket file subdir fs env store).2.1 =
      [S3Event.getObject bucket (subdir ++ "/" ++ file)] ∧
    (subdir = "" →
      objectKey subdir file = "/" ++ file ∧ objectKey subdir file ≠ file) := by
  refine ⟨?_, ?_, ?_⟩
  · unfold uploadCmdRun
    rw [hcfg, hread]
    cases env.putResult <;> simp [hb, hf, objectKey]
  · unfold downloadCmdRun
    rw [hcfg]
    cases env.getResult with
    | error e => simp [hb, hf, objectKey]
    | ok u =>
        cases hst : store bucket (subdir ++ "/" ++ file) <;>
          cases env.readBodyResult <;>
          cases env.writeFileResult <;>
          simp [hb, hf, objectKey, hst]
  · intro hsub
    subst hsub
    constructor
    · simp [objectKey]
    · intro hkey
      have hlen := congrArg String.length hkey
      simp [objectKey, String.length_append] at hlen
      exact absurd hlen (by decide)

/-- Witness for the object-key shape with an omitted subdirectory. -/
theorem c10_object_key_shape_witness :
    (uploadCmdRun "bkt" "secret.json" "" sampleFS s3EnvOk emptyStore).2.1 =
      [S3Event.putObject "bkt" ("" ++ "/" ++ "secret.json") "pw"] ∧
    (downloadCmdRun "bkt" "secret.json" "" sampleFS s3EnvOk emptyStore).2.1 =
      [S3Event.getObject "bkt" ("" ++ "/" ++ "secret.json")] ∧
    ("" = "" →
      objectKey "" "secret.json" = "/" ++ "secret.json" ∧
      objectKey "" "secret.json" ≠ "secret.json") :=
  c10_object_key_shape "bkt" "secret.json" "" sampleFS s3EnvOk emptyStore "pw"
    (by decide) (by decide) rfl rfl

